import Mathlib

/-!
Shallow embedding of the weather repository (Go package weather, files
openweather.go and weather.go) and proofs about its specification.

Modelling conventions:
  - Go byte slices become lists of naturals (the byte values).
  - Go errors become Option String holding the error message text; a Go
    function returning (T, error) becomes a pair of T and Option String,
    so that partial results accompanying an error remain expressible.
  - The HTTP transport (the http.Client collaborator) becomes a function
    from the request URL to an outcome: a Get failure, a body read
    failure, or a successful body.  Each client method additionally
    returns the list of URLs it requested, so that the absence of a
    network call is a provable statement.
  - JSON syntax parsing (the encoding/json collaborator) is abstracted
    as a function from bytes to Option Json over a JSON value tree;
    the mapping from Json values onto the Go target structures is
    modelled concretely below, following encoding/json semantics for
    the involved types: a missing object field leaves the zero value,
    a JSON null leaves the zero value, a wrong-typed value is an error,
    unknown object fields are ignored, and for duplicate keys the last
    value wins.
  - Go float64 values become rationals; the fmt verb for two decimal
    places is modelled by format2dp, exact on inputs with at most two
    decimal digits.
-/

set_option autoImplicit false

namespace Weather

/-- Bytes models a Go byte slice as the list of its byte values. -/
abbrev Bytes := List Nat

/-- GoErr models a Go error by its message text. -/
abbrev GoErr := String

/-- Json is the tree of JSON values produced by syntax parsing. -/
inductive Json where
  | null
  | bool (b : Bool)
  | num (q : ℚ)
  | str (s : String)
  | arr (elems : List Json)
  | obj (fields : List (String × Json))

/-- Parse abstracts the JSON syntax parser of encoding/json: bytes to a
Json tree, or none when the input is not syntactically valid JSON. -/
abbrev Parse := Bytes → Option Json

/-- lookupField models object field access of encoding/json: for
duplicate keys the last value wins. -/
def lookupField (fields : List (String × Json)) (key : String) : Option Json :=
  fields.foldl (fun acc f => if f.1 = key then some f.2 else acc) none

/-- decodeField models decoding a struct field: a missing key leaves the
zero value of the field, a present value is decoded. -/
def decodeField {α : Type} (fields : List (String × Json)) (key : String)
    (dec : Json → Option α) (dflt : α) : Option α :=
  match lookupField fields key with
  | none => some dflt
  | some j => dec j

/-- decodeString models unmarshalling into a Go string field. -/
def decodeString : Json → Option String
  | .null => some ""
  | .str s => some s
  | _ => none

/-- decodeNum models unmarshalling into a Go float64 field. -/
def decodeNum : Json → Option ℚ
  | .null => some 0
  | .num q => some q
  | _ => none

/-- decodeInt models unmarshalling into a Go int field: the number must
be integral. -/
def decodeInt : Json → Option Int
  | .null => some 0
  | .num q => if q.den = 1 then some q.num else none
  | _ => none

/-- decodeNat models unmarshalling into a Go uint64 field: the number
must be a nonnegative integer. -/
def decodeNat : Json → Option Nat
  | .null => some 0
  | .num q => if q.den = 1 ∧ 0 ≤ q.num then some q.num.toNat else none
  | _ => none

/-- decodeList models unmarshalling into a Go slice: null gives the nil
slice, an array decodes elementwise, anything else is an error. -/
def decodeList {α : Type} (dec : Json → Option α) : Json → Option (List α)
  | .null => some []
  | .arr es => es.mapM dec
  | _ => none

/-- Summary mirrors struct Summary of openweather.go. -/
structure Summary where
  Desc : String
deriving DecidableEq

/-- Metrics mirrors struct Metrics of openweather.go. -/
structure Metrics where
  Temp : ℚ
  Humidity : Int
deriving DecidableEq

/-- CurrentAPIResp mirrors struct CurrentAPIResp of openweather.go. -/
structure CurrentAPIResp where
  Summaries : List Summary
  Metrics : Metrics
deriving DecidableEq

/-- Location mirrors struct Location of openweather.go. -/
structure Location where
  Name : String
  Country : String
  Lat : ℚ
  Lon : ℚ
deriving DecidableEq

/-- OneCallDayTemp mirrors struct OneCallDayTemp of openweather.go. -/
structure OneCallDayTemp where
  Low : ℚ
  High : ℚ
deriving DecidableEq

/-- OneCallDaySummary mirrors struct OneCallDaySummary of openweather.go. -/
structure OneCallDaySummary where
  Desc : String
deriving DecidableEq

/-- OneCallDayForecast mirrors struct OneCallDayForecast of openweather.go. -/
structure OneCallDayForecast where
  Date : Nat
  Temp : OneCallDayTemp
  Humidity : Int
  Weather : List OneCallDaySummary
deriving DecidableEq

/-- OneCallAPIResp mirrors struct OneCallAPIResp of openweather.go. -/
structure OneCallAPIResp where
  Daily : List OneCallDayForecast
deriving DecidableEq

/-- zeroMetrics is the Go zero value of Metrics. -/
def zeroMetrics : Metrics := ⟨0, 0⟩

/-- zeroCurrentResp is the Go zero value of CurrentAPIResp. -/
def zeroCurrentResp : CurrentAPIResp := ⟨[], zeroMetrics⟩

/-- zeroLocation is the Go zero value of Location. -/
def zeroLocation : Location := ⟨"", "", 0, 0⟩

/-- zeroDayTemp is the Go zero value of OneCallDayTemp. -/
def zeroDayTemp : OneCallDayTemp := ⟨0, 0⟩

/-- zeroDayForecast is the Go zero value of OneCallDayForecast. -/
def zeroDayForecast : OneCallDayForecast := ⟨0, zeroDayTemp, 0, []⟩

/-- decodeSummary models unmarshalling a JSON value into struct Summary
with its description tag. -/
def decodeSummary : Json → Option Summary
  | .null => some ⟨""⟩
  | .obj fs => do
      let d ← decodeField fs "description" decodeString ""
      pure ⟨d⟩
  | _ => none

/-- decodeMetrics models unmarshalling a JSON value into struct Metrics
with its temp and humidity tags. -/
def decodeMetrics : Json → Option Metrics
  | .null => some zeroMetrics
  | .obj fs => do
      let t ← decodeField fs "temp" decodeNum 0
      let h ← decodeField fs "humidity" decodeInt 0
      pure ⟨t, h⟩
  | _ => none

/-- decodeCurrentResp models unmarshalling a JSON value into struct
CurrentAPIResp with its weather and main tags. -/
def decodeCurrentResp : Json → Option CurrentAPIResp
  | .null => some zeroCurrentResp
  | .obj fs => do
      let w ← decodeField fs "weather" (decodeList decodeSummary) []
      let m ← decodeField fs "main" decodeMetrics zeroMetrics
      pure ⟨w, m⟩
  | _ => none

/-- decodeLocation models unmarshalling a JSON value into struct
Location with its name, country, lat and lon tags. -/
def decodeLocation : Json → Option Location
  | .null => some zeroLocation
  | .obj fs => do
      let n ← decodeField fs "name" decodeString ""
      let co ← decodeField fs "country" decodeString ""
      let la ← decodeField fs "lat" decodeNum 0
      let lo ← decodeField fs "lon" decodeNum 0
      pure ⟨n, co, la, lo⟩
  | _ => none

/-- decodeLocations models unmarshalling a JSON value into a Go slice of
Location. -/
def decodeLocations : Json → Option (List Location) :=
  decodeList decodeLocation

/-- decodeDayTemp models unmarshalling a JSON value into struct
OneCallDayTemp with its min and max tags. -/
def decodeDayTemp : Json → Option OneCallDayTemp
  | .null => some zeroDayTemp
  | .obj fs => do
      let lo ← decodeField fs "min" decodeNum 0
      let hi ← decodeField fs "max" decodeNum 0
      pure ⟨lo, hi⟩
  | _ => none

/-- decodeDaySummary models unmarshalling a JSON value into struct
OneCallDaySummary with its description tag. -/
def decodeDaySummary : Json → Option OneCallDaySummary
  | .null => some ⟨""⟩
  | .obj fs => do
      let d ← decodeField fs "description" decodeString ""
      pure ⟨d⟩
  | _ => none

/-- decodeDayForecast models unmarshalling a JSON value into struct
OneCallDayForecast with its dt, temp, humidity and weather tags. -/
def decodeDayForecast : Json → Option OneCallDayForecast
  | .null => some zeroDayForecast
  | .obj fs => do
      let dt ← decodeField fs "dt" decodeNat 0
      let t ← decodeField fs "temp" decodeDayTemp zeroDayTemp
      let h ← decodeField fs "humidity" decodeInt 0
      let w ← decodeField fs "weather" (decodeList decodeDaySummary) []
      pure ⟨dt, t, h, w⟩
  | _ => none

/-- decodeOneCallResp models unmarshalling a JSON value into struct
OneCallAPIResp with its daily tag. -/
def decodeOneCallResp : Json → Option OneCallAPIResp
  | .null => some ⟨[]⟩
  | .obj fs => do
      let d ← decodeField fs "daily" (decodeList decodeDayForecast) []
      pure ⟨d⟩
  | _ => none

/-- lowerChar models unicode.ToLower restricted to ASCII, which covers
every character relevant to the unit tokens of this repository. -/
def lowerChar (c : Char) : Char :=
  if 65 ≤ c.toNat ∧ c.toNat ≤ 90 then Char.ofNat (c.toNat + 32) else c

/-- strToLower models strings.ToLower of the Go standard library on
ASCII input. -/
def strToLower (s : String) : String :=
  String.mk (s.data.map lowerChar)

/-- goIsSpace models unicode.IsSpace on the ASCII range. -/
def goIsSpace (c : Char) : Bool :=
  c = ' ' || c = '\t' || c = '\n' || c = '\x0b' || c = '\x0c' || c = '\r'

/-- trimSpaceList removes leading and trailing white space characters
from a list of characters. -/
def trimSpaceList (l : List Char) : List Char :=
  ((l.reverse.dropWhile goIsSpace).reverse).dropWhile goIsSpace

/-- trimSpace models strings.TrimSpace of the Go standard library:
the input with leading and trailing white space removed. -/
def trimSpace (s : String) : String :=
  String.mk (trimSpaceList s.data)

/-- pad2 renders a natural below 100 with exactly two digits. -/
def pad2 (n : Nat) : String :=
  if n < 10 then "0" ++ toString n else toString n

/-- format2dp models the fmt verb for a float with two decimal places,
as used for temperatures, latitudes and longitudes; it is exact on
inputs that carry at most two decimal digits.  The natural n below is
the floor of the magnitude times one hundred plus one half, written
over a common denominator so that only integer arithmetic occurs. -/
def format2dp (q : ℚ) : String :=
  let n := (200 * q.num.natAbs + q.den) / (2 * q.den)
  (if q.num < 0 then "-" else "") ++ toString (n / 100) ++ "." ++ pad2 (n % 100)

/-- joinComma models strings.Join with a comma separator. -/
def joinComma : List String → String
  | [] => ""
  | [x] => x
  | x :: xs => x ++ "," ++ joinComma xs

/-- errEmptyLocation is the error text of the package level variable of
the same name in openweather.go. -/
def errEmptyLocation : GoErr := "location argument must not be empty"

/-- errInvalidUnits is the error text of the package level variable of
the same name in openweather.go. -/
def errInvalidUnits : GoErr := "units must be one of: standard, metric, imperial"

/-- validUnit mirrors func validUnit of openweather.go: the argument is
lowercased and compared against the three unit tokens. -/
def validUnit (u : String) : Bool :=
  let u := strToLower u
  u == "standard" || u == "metric" || u == "imperial"

/-- HttpOutcome is the observable outcome of one HTTP Get followed by a
read of the response body: the Get fails, reading the body fails, or a
body is obtained. -/
inductive HttpOutcome where
  | getError (msg : String)
  | readError (msg : String)
  | success (body : Bytes)
deriving DecidableEq

/-- Transport models an http.Client as a function from the request URL
to the outcome of the request. -/
abbrev Transport := String → HttpOutcome

/-- Client mirrors struct Client of openweather.go.  The Timeout field
models the timeout of the held http.Client. -/
structure Client where
  HTTPClient : Transport
  Timeout : Nat
  BaseURL : String
  APIKey : String

/-- nilTransport stands for the nil http.Client pointer inside a Go
zero value Client. -/
def nilTransport : Transport := fun _ => .getError "http client is nil"

/-- zeroClient is the Go zero value of Client. -/
def zeroClient : Client := ⟨nilTransport, 0, "", ""⟩

/-- NewClient mirrors func NewClient of openweather.go.  The ambient
default http.Client is passed in as the transport hc; on success the
client holds it with a timeout of ten seconds. -/
def NewClient (hc : Transport) (apiKey : String) : Client × Option GoErr :=
  if apiKey = "" then (zeroClient, some "apiKey argument must not be empty")
  else (⟨hc, 10, "https://api.openweathermap.org", apiKey⟩, none)

/-- currentURL is the URL built by Client.Current of openweather.go. -/
def currentURL (c : Client) (location units : String) : String :=
  c.BaseURL ++ "/data/2.5/weather?q=" ++ location ++ "&units=" ++ units
    ++ "&appid=" ++ c.APIKey

/-- Current mirrors func Client.Current of openweather.go; the second
component lists the URLs requested during the call. -/
def Client.Current (c : Client) (location units : String) :
    (Bytes × Option GoErr) × List String :=
  if location = "" then (([], some errEmptyLocation), [])
  else if ! validUnit units then (([], some errInvalidUnits), [])
  else
    let URL := currentURL c location units
    match c.HTTPClient URL with
    | .getError m =>
        (([], some ("error getting data from " ++ URL ++ ": " ++ m)), [URL])
    | .readError m =>
        (([], some ("got error reading response body: " ++ m)), [URL])
    | .success b => ((b, none), [URL])

/-- geocodeURL is the URL built by Client.GeocodeData of openweather.go. -/
def geocodeURL (c : Client) (location : String) : String :=
  c.BaseURL ++ "/geo/1.0/direct?q=" ++ location ++ "&limit=1&appid=" ++ c.APIKey

/-- GeocodeData mirrors func Client.GeocodeData of openweather.go; the
second component lists the URLs requested during the call. -/
def Client.GeocodeData (c : Client) (location : String) :
    (Bytes × Option GoErr) × List String :=
  if location = "" then (([], some errEmptyLocation), [])
  else
    let URL := geocodeURL c location
    match c.HTTPClient URL with
    | .getError m =>
        (([], some ("error getting data from " ++ URL ++ ": " ++ m)), [URL])
    | .readError m =>
        (([], some ("error reading response body: " ++ m)), [URL])
    | .success b => ((b, none), [URL])

/-- excludeFilter mirrors the loop of Client.OneCallData: each time
frame is lowercased and kept exactly when it is one of the five
recognized tokens. -/
def excludeFilter (exclude : List String) : List String :=
  exclude.filterMap (fun tf =>
    let tf := strToLower tf
    if tf == "current" || tf == "minutely" || tf == "hourly"
        || tf == "daily" || tf == "alerts"
    then some tf else none)

/-- excludeParam mirrors the excludes string of Client.OneCallData: the
joined survivors prefixed by the query key, or empty when no time frame
survived the filter. -/
def excludeParam (exclude : List String) : String :=
  let tfs := excludeFilter exclude
  if tfs.length > 0 then "&exclude=" ++ joinComma tfs else ""

/-- oneCallURL is the URL built by Client.OneCallData of openweather.go. -/
def oneCallURL (c : Client) (lat lon : ℚ) (units : String)
    (exclude : List String) : String :=
  c.BaseURL ++ "/data/2.5/onecall?lat=" ++ format2dp lat ++ "&lon="
    ++ format2dp lon ++ "&units=" ++ units ++ "&appid=" ++ c.APIKey
    ++ excludeParam exclude

/-- OneCallData mirrors func Client.OneCallData of openweather.go; the
second component lists the URLs requested during the call. -/
def Client.OneCallData (c : Client) (lat lon : ℚ) (units : String)
    (exclude : List String) : (Bytes × Option GoErr) × List String :=
  if ! validUnit units then (([], some errInvalidUnits), [])
  else
    let URL := oneCallURL c lat lon units exclude
    match c.HTTPClient URL with
    | .getError m =>
        (([], some ("error getting data from " ++ URL ++ ": " ++ m)), [URL])
    | .readError m =>
        (([], some ("error reading response body: " ++ m)), [URL])
    | .success b => ((b, none), [URL])

/-- DecodeCurrent mirrors func DecodeCurrent of openweather.go: the
bytes are unmarshalled into a CurrentAPIResp; on any unmarshalling
failure the zero value and an error are returned. -/
def DecodeCurrent (parse : Parse) (data : Bytes) :
    CurrentAPIResp × Option GoErr :=
  match (parse data).bind decodeCurrentResp with
  | none => (zeroCurrentResp, some "got error unmarshaling json")
  | some r => (r, none)

/-- DecodeGeoData mirrors func DecodeGeoData of openweather.go: the
bytes are unmarshalled into a slice of Location; unmarshalling failure
and an empty slice are errors, otherwise the first element is returned. -/
def DecodeGeoData (parse : Parse) (data : Bytes) : Location × Option GoErr :=
  match (parse data).bind decodeLocations with
  | none => (zeroLocation, some "got error unmarshaling geocode json data")
  | some [] =>
      (zeroLocation,
       some "response from Geocoding API must contain at least one location")
  | some (first :: _) => (first, none)

/-- DecodeOneCallDailyData mirrors func DecodeOneCallDailyData of
openweather.go: empty input is an error, otherwise the bytes are
unmarshalled into a OneCallAPIResp and its Daily slice is returned. -/
def DecodeOneCallDailyData (parse : Parse) (data : Bytes) :
    List OneCallDayForecast × Option GoErr :=
  if data.length = 0 then
    ([], some "data must be a non-empty response from the OneCall API")
  else
    match (parse data).bind decodeOneCallResp with
    | none => ([], some "got error unmarshaling onecall API response")
    | some resp => (resp.Daily, none)

/-- temperatureInitials mirrors the package level map of weather.go
under Go map lookup semantics: a missing key yields the empty string. -/
def temperatureInitials (u : String) : String :=
  if u = "standard" then "K"
  else if u = "metric" then "C"
  else if u = "imperial" then "F"
  else ""

/-- Conditions mirrors func Conditions of weather.go: build a client,
fetch the current weather, decode it, and format the summary line. -/
def Conditions (hc : Transport) (parse : Parse)
    (location units apiKey : String) : String × Option GoErr :=
  match NewClient hc apiKey with
  | (_, some e) => ("", some e)
  | (client, none) =>
    match (client.Current location units).1 with
    | (_, some e) => ("", some e)
    | (data, none) =>
      match DecodeCurrent parse data with
      | (_, some e) => ("", some e)
      | (resp, none) =>
        let desc := match resp.Summaries with
          | [] => ""
          | s :: _ => s.Desc ++ " "
        let ti := temperatureInitials units
        (trimSpace desc ++ ", " ++ format2dp resp.Metrics.Temp ++ " " ++ ti
          ++ ", humidity " ++ toString resp.Metrics.Humidity ++ "%", none)

/-- stubBody is an opaque byte token standing for the JSON text served
by the stub server of the end to end scenario. -/
def stubBody : Bytes := [1]

/-- stubJson is the parsed form of the stub server response: one weather
summary reading overcast clouds, temperature 9.21 and humidity 46. -/
def stubJson : Json :=
  Json.obj
    [("weather", Json.arr [Json.obj [("description", Json.str "overcast clouds")]]),
     ("main", Json.obj [("temp", Json.num (mkRat 921 100)), ("humidity", Json.num 46)])]

/-- stubParse parses exactly the stub body, to stubJson. -/
def stubParse : Parse := fun d => if d = stubBody then some stubJson else none

/-- stubTransport answers every request with the stub body. -/
def stubTransport : Transport := fun _ => .success stubBody

/-- stubResp is the decoded form of the stub server response. -/
def stubResp : CurrentAPIResp := ⟨[⟨"overcast clouds"⟩], ⟨mkRat 921 100, 46⟩⟩

/-- testClient is the client built from the stub transport and a fixed
key, for concrete instantiations. -/
def testClient : Client := (NewClient stubTransport "KEY").1

/-- geoLoc1 is the first location served by the geocoding fixture. -/
def geoLoc1 : Location := ⟨"London", "GB", mkRat 5151 100, mkRat (-13) 100⟩

/-- geoJson is a parsed geocoding response holding two locations. -/
def geoJson : Json :=
  Json.arr
    [Json.obj [("name", Json.str "London"), ("country", Json.str "GB"),
               ("lat", Json.num (mkRat 5151 100)), ("lon", Json.num (mkRat (-13) 100))],
     Json.null]

/-- geoBody is an opaque byte token for the geocoding fixture. -/
def geoBody : Bytes := [2]

/-- geoParse parses exactly the geocoding fixture body. -/
def geoParse : Parse := fun d => if d = geoBody then some geoJson else none

/-- dayJson is one parsed daily forecast entry of the one call fixture. -/
def dayJson : Json :=
  Json.obj
    [("dt", Json.num 1634630400),
     ("temp", Json.obj [("min", Json.num (mkRat 1 2)), ("max", Json.num 10)]),
     ("humidity", Json.num 80),
     ("weather", Json.arr [Json.obj [("description", Json.str "light rain")]])]

/-- dayForecast1 is the decoded form of the daily forecast fixture entry. -/
def dayForecast1 : OneCallDayForecast :=
  ⟨1634630400, ⟨mkRat 1 2, 10⟩, 80, [⟨"light rain"⟩]⟩

/-- dailyBody is an opaque byte token for the one call fixture. -/
def dailyBody : Bytes := [3]

/-- dailyJson is a parsed one call response with one daily entry. -/
def dailyJson : Json := Json.obj [("daily", Json.arr [dayJson])]

/-- dailyParse parses exactly the one call fixture body. -/
def dailyParse : Parse := fun d => if d = dailyBody then some dailyJson else none

/-- emptyObjBody is an opaque byte token for a response that parses to
an object without any field. -/
def emptyObjBody : Bytes := [4]

/-- emptyObjParse parses exactly the empty object body. -/
def emptyObjParse : Parse :=
  fun d => if d = emptyObjBody then some (Json.obj []) else none

/-- presentEmptyBody is an opaque byte token for a response that parses
to an object whose daily field is an empty array. -/
def presentEmptyBody : Bytes := [5]

/-- presentEmptyParse parses exactly the present but empty daily body. -/
def presentEmptyParse : Parse :=
  fun d => if d = presentEmptyBody then some (Json.obj [("daily", Json.arr [])]) else none

/-- cExcl is the exclude list of the filtering scenario. -/
def cExcl : List String :=
  ["ignored", "current", "ignored", "minutely", "hourly", "alerts", "yearly-ignored"]

/-- HttpConfig is the mutable configuration shared through the default
http.Client: its timeout. -/
structure HttpConfig where
  timeoutSeconds : Nat
deriving DecidableEq

/-- NewClientW is NewClient with the ambient shared http configuration
threaded explicitly: on the success path the source writes a ten second
timeout into the shared default client before building the Client, and
performs no other write. -/
def NewClientW (cfg : HttpConfig) (hc : Transport) (apiKey : String) :
    (Client × Option GoErr) × HttpConfig :=
  if apiKey = "" then ((zeroClient, some "apiKey argument must not be empty"), cfg)
  else ((⟨hc, 10, "https://api.openweathermap.org", apiKey⟩, none), ⟨10⟩)

/-- CurrentW is Current with the receiver and the shared configuration
threaded explicitly: the source takes the receiver by value and contains
no assignment to any Client field, to the transport handle, or to the
shared configuration, so both come back unchanged. -/
def Client.CurrentW (c : Client) (cfg : HttpConfig) (location units : String) :
    ((Bytes × Option GoErr) × List String) × Client × HttpConfig :=
  (c.Current location units, c, cfg)

/-- GeocodeDataW is GeocodeData with the receiver and the shared
configuration threaded explicitly; the source mutates neither. -/
def Client.GeocodeDataW (c : Client) (cfg : HttpConfig) (location : String) :
    ((Bytes × Option GoErr) × List String) × Client × HttpConfig :=
  (c.GeocodeData location, c, cfg)

/-- OneCallDataW is OneCallData with the receiver and the shared
configuration threaded explicitly; the source mutates neither. -/
def Client.OneCallDataW (c : Client) (cfg : HttpConfig) (lat lon : ℚ)
    (units : String) (exclude : List String) :
    ((Bytes × Option GoErr) × List String) × Client × HttpConfig :=
  (c.OneCallData lat lon units exclude, c, cfg)

/-! Helper lemmas shared by several claims. -/

theorem trimSpaceList_append_space (l : List Char) :
    trimSpaceList (l ++ [' ']) = trimSpaceList l := by
  simp [trimSpaceList, List.dropWhile, goIsSpace]

theorem trimSpace_append_space (s : String) :
    trimSpace (s ++ " ") = trimSpace s := by
  have h : (s ++ " ").data = s.data ++ [' '] := by
    cases s
    rfl
  unfold trimSpace
  rw [h, trimSpaceList_append_space]

/-- Claim C4: DecodeGeoData errs exactly when unmarshalling fails or
the parsed array is empty; with at least one element it returns the
first element, and the Location fields come through unmodified. -/
theorem C4_decode_geo (parse : Parse) (data : Bytes) :
    (((DecodeGeoData parse data).2 ≠ none) ↔
       ((parse data).bind decodeLocations = none
         ∨ (parse data).bind decodeLocations = some [])) ∧
    (∀ (first : Location) (rest : List Location),
       (parse data).bind decodeLocations = some (first :: rest) →
       DecodeGeoData parse data = (first, none)) ∧
    (∀ (n co : String) (la lo : ℚ),
       decodeLocation (Json.obj [("name", Json.str n), ("country", Json.str co),
         ("lat", Json.num la), ("lon", Json.num lo)]) = some ⟨n, co, la, lo⟩) := by
  refine ⟨?_, ?_, ?_⟩
  · unfold DecodeGeoData
    rcases h : (parse data).bind decodeLocations with _ | l
    · simp [h]
    · cases l <;> simp [h]
  · intro first rest h
    unfold DecodeGeoData
    rw [h]
  · intro n co la lo
    rfl

/-- Claim C4 witness: the geocoding fixture parses to two locations and
DecodeGeoData hands back the first one with no error. -/
theorem C4_decode_geo_witness :
    DecodeGeoData geoParse geoBody = (geoLoc1, none) :=
  (C4_decode_geo geoParse geoBody).2.1 geoLoc1 [zeroLocation] (by decide)

/-- Claim C5: DecodeOneCallDailyData errs on empty input and on any
unmarshalling failure; a parsed object carrying a daily array yields
its decoded elements, and an empty daily array yields the empty list
with no error. -/
theorem C5_decode_onecall (parse : Parse) (data : Bytes) :
    (data = [] → DecodeOneCallDailyData parse data
        = ([], some "data must be a non-empty response from the OneCall API")) ∧
    (data ≠ [] → (parse data).bind decodeOneCallResp = none →
       (DecodeOneCallDailyData parse data).2 ≠ none) ∧
    (∀ (fs : List (String × Json)) (elems : List Json)
       (days : List OneCallDayForecast),
       data ≠ [] → parse data = some (Json.obj fs) →
       lookupField fs "daily" = some (Json.arr elems) →
       elems.mapM decodeDayForecast = some days →
       DecodeOneCallDailyData parse data = (days, none)) ∧
    (∀ (fs : List (String × Json)),
       data ≠ [] → parse data = some (Json.obj fs) →
       lookupField fs "daily" = some (Json.arr []) →
       DecodeOneCallDailyData parse data = ([], none)) := by
  refine ⟨?_, ?_, ?_, ?_⟩
  · intro h
    subst h
    rfl
  · intro h hb
    unfold DecodeOneCallDailyData
    rw [if_neg (show ¬ data.length = 0 by simp [List.length_eq_zero, h])]
    simp [hb]
  · intro fs elems days h hp hf hm
    unfold DecodeOneCallDailyData
    rw [if_neg (show ¬ data.length = 0 by simp [List.length_eq_zero, h])]
    rw [hp]
    have hm' : List.mapM.loop decodeDayForecast elems [] = some days := hm
    simp [Option.bind, decodeOneCallResp, decodeField, hf, decodeList, hm']
  · intro fs h hp hf
    unfold DecodeOneCallDailyData
    rw [if_neg (show ¬ data.length = 0 by simp [List.length_eq_zero, h])]
    rw [hp]
    simp [Option.bind, decodeOneCallResp, decodeField, hf, decodeList,
      List.mapM.loop]

/-- Claim C5 witness: the one call fixture is non empty, parses to an
object with a one element daily array, and decodes to that element. -/
theorem C5_decode_onecall_witness :
    DecodeOneCallDailyData dailyParse dailyBody = ([dayForecast1], none) :=
  (C5_decode_onecall dailyParse dailyBody).2.2.1 [("daily", Json.arr [dayJson])]
    [dayJson] [dayForecast1] (by decide) rfl rfl rfl

/-- Claim C10: a non empty input parsing to an object without a daily
field decodes to the empty list with no error, the same result as an
object whose daily array is present but empty. -/
theorem C10_missing_daily (parse : Parse) (data : Bytes)
    (fs : List (String × Json)) :
    (data ≠ [] → parse data = some (Json.obj fs) →
       lookupField fs "daily" = none →
       DecodeOneCallDailyData parse data = ([], none)) ∧
    (data ≠ [] → parse data = some (Json.obj fs) →
       lookupField fs "daily" = some (Json.arr []) →
       DecodeOneCallDailyData parse data = ([], none)) := by
  refine ⟨?_, ?_⟩ <;> intro h hp hf <;> unfold DecodeOneCallDailyData <;>
    rw [if_neg (show ¬ data.length = 0 by simp [List.length_eq_zero, h])] <;>
    rw [hp] <;>
    simp [Option.bind, decodeOneCallResp, decodeField, hf, decodeList,
      List.mapM.loop]

/-- Claim C10 witness: the empty object fixture and the empty daily
array fixture both decode to the empty list with no error. -/
theorem C10_missing_daily_witness :
    DecodeOneCallDailyData emptyObjParse emptyObjBody = ([], none) ∧
    DecodeOneCallDailyData presentEmptyParse presentEmptyBody = ([], none) :=
  ⟨(C10_missing_daily emptyObjParse emptyObjBody []).1
      (by decide) rfl rfl,
   (C10_missing_daily presentEmptyParse presentEmptyBody
      [("daily", Json.arr [])]).2 (by decide) rfl rfl⟩

/-- Claim C9: the unit validation of the client lowercases its argument
and accepts the case variant METRIC, which is not one of the three
lowercase tokens, while the unit letter lookup of Conditions is case
sensitive, so Conditions succeeds and renders an empty unit letter. -/
theorem C9_case_variant_units :
    validUnit "METRIC" = true ∧
    ("METRIC" ≠ "standard" ∧ "METRIC" ≠ "metric" ∧ "METRIC" ≠ "imperial") ∧
    temperatureInitials "METRIC" = "" ∧
    Conditions stubTransport stubParse "london" "METRIC" "KEY"
      = ("overcast clouds, 9.21 , humidity 46%", none) := by decide

/-- Claim C1: for every decoded current weather response, Conditions
renders the trimmed first summary text (empty when no summaries exist),
a comma, the temperature with two decimal places, the unit letter, and
the humidity percentage; the unit letter is K, C or F for the three
lowercase unit tokens, and the end to end scenario renders exactly the
expected line. -/
theorem C1_conditions_format :
    (∀ (hc : Transport) (parse : Parse) (location units apiKey : String)
       (data : Bytes) (resp : CurrentAPIResp),
       apiKey ≠ "" →
       ((NewClient hc apiKey).1.Current location units).1 = (data, none) →
       DecodeCurrent parse data = (resp, none) →
       Conditions hc parse location units apiKey =
         ((match resp.Summaries with
           | [] => ""
           | s :: _ => trimSpace s.Desc)
          ++ ", " ++ format2dp resp.Metrics.Temp ++ " "
          ++ temperatureInitials units ++ ", humidity "
          ++ toString resp.Metrics.Humidity ++ "%", none)) ∧
    temperatureInitials "standard" = "K" ∧
    temperatureInitials "metric" = "C" ∧
    temperatureInitials "imperial" = "F" ∧
    Conditions stubTransport stubParse "london" "metric" "KEY"
      = ("overcast clouds, 9.21 C, humidity 46%", none) := by
  refine ⟨?_, rfl, rfl, rfl, by decide⟩
  intro hc parse location units apiKey data resp hkey hcur hdec
  have hcl : NewClient hc apiKey
      = (⟨hc, 10, "https://api.openweathermap.org", apiKey⟩, none) := by
    simp [NewClient, hkey]
  rw [hcl] at hcur
  unfold Conditions
  rw [hcl]
  dsimp only
  rw [hcur]
  dsimp only
  rw [hdec]
  dsimp only
  rcases resp with ⟨sums, mets⟩
  cases sums with
  | nil => rfl
  | cons s rest =>
    dsimp only
    rw [trimSpace_append_space]

/-- Claim C1 witness: the general formatting statement applied to the
stub scenario. -/
theorem C1_conditions_format_witness :
    Conditions stubTransport stubParse "london" "metric" "KEY"
      = ((match stubResp.Summaries with
          | [] => ""
          | s :: _ => trimSpace s.Desc)
         ++ ", " ++ format2dp stubResp.Metrics.Temp ++ " "
         ++ temperatureInitials "metric" ++ ", humidity "
         ++ toString stubResp.Metrics.Humidity ++ "%", none) :=
  C1_conditions_format.1 stubTransport stubParse "london" "metric" "KEY"
    stubBody stubResp (by decide) (by decide) (by decide)

/-- Claim C2 counterexample: METRIC is outside the exact lowercase set,
yet Current returns no error and issues a request. -/
theorem C2_units_counterexample :
    ("METRIC" ≠ "standard" ∧ "METRIC" ≠ "metric" ∧ "METRIC" ≠ "imperial") ∧
    (testClient.Current "london" "METRIC").1.2 = none ∧
    (testClient.Current "london" "METRIC").2 ≠ [] := by decide

/-- Claim C2 amended: for every units value rejected by validUnit, that
is, whose lowercase form is not one of the three unit tokens, Current
and OneCallData return an error and issue no request. -/
theorem C2_invalid_units (c : Client) (location units : String) (lat lon : ℚ)
    (exclude : List String) (h : validUnit units = false) :
    ((c.Current location units).1.2).isSome = true ∧
    (c.Current location units).2 = [] ∧
    ((c.OneCallData lat lon units exclude).1.2).isSome = true ∧
    (c.OneCallData lat lon units exclude).2 = [] := by
  unfold Client.Current Client.OneCallData
  rw [h]
  by_cases hl : location = "" <;> simp [hl]

/-- Claim C2 amended witness: the units token bogus is rejected with no
request on both methods. -/
theorem C2_invalid_units_witness :
    validUnit "bogus" = false ∧
    (((testClient.Current "london" "bogus").1.2).isSome = true ∧
     (testClient.Current "london" "bogus").2 = [] ∧
     ((testClient.OneCallData 0 0 "bogus" []).1.2).isSome = true ∧
     (testClient.OneCallData 0 0 "bogus" []).2 = []) :=
  ⟨by decide, C2_invalid_units testClient "london" "bogus" 0 0 [] (by decide)⟩

theorem excludeTok_eq (tf : String) :
    (let l := strToLower tf
     if l == "current" || l == "minutely" || l == "hourly"
         || l == "daily" || l == "alerts"
     then some l else none)
    = (if strToLower tf
          ∈ (["current", "minutely", "hourly", "daily", "alerts"] : List String)
       then some (strToLower tf) else none) := by
  by_cases h1 : strToLower tf = "current"
  · simp [h1]
  by_cases h2 : strToLower tf = "minutely"
  · simp [h2]
  by_cases h3 : strToLower tf = "hourly"
  · simp [h3]
  by_cases h4 : strToLower tf = "daily"
  · simp [h4]
  by_cases h5 : strToLower tf = "alerts"
  · simp [h5]
  simp [h1, h2, h3, h4, h5]

theorem excludeFilter_eq (exclude : List String) :
    excludeFilter exclude = exclude.filterMap (fun tf =>
      if strToLower tf
          ∈ (["current", "minutely", "hourly", "daily", "alerts"] : List String)
      then some (strToLower tf) else none) := by
  unfold excludeFilter
  congr 1
  funext tf
  exact excludeTok_eq tf

theorem excludeParam_eq (exclude : List String) :
    excludeParam exclude =
      (if excludeFilter exclude = [] then ""
       else "&exclude=" ++ joinComma (excludeFilter exclude)) := by
  unfold excludeParam
  rcases h : excludeFilter exclude with _ | ⟨a, l⟩ <;> simp [h]

/-- Claim C3: with valid units, OneCallData requests exactly the one
call URL whose exclude parameter joins with commas the lowercased
tokens of the exclude list that belong to the recognized set, in input
order with duplicates kept, and is absent when no token survives; on
the scenario list the parameter is exactly the four expected tokens. -/
theorem C3_onecall_exclude :
    (∀ (c : Client) (lat lon : ℚ) (units : String) (exclude : List String),
       validUnit units = true →
       (c.OneCallData lat lon units exclude).2 =
         [c.BaseURL ++ "/data/2.5/onecall?lat=" ++ format2dp lat ++ "&lon="
            ++ format2dp lon ++ "&units=" ++ units ++ "&appid=" ++ c.APIKey
            ++ (if (exclude.filterMap (fun tf =>
                    if strToLower tf ∈ (["current", "minutely", "hourly",
                        "daily", "alerts"] : List String)
                    then some (strToLower tf) else none)) = []
                then ""
                else "&exclude=" ++ joinComma (exclude.filterMap (fun tf =>
                    if strToLower tf ∈ (["current", "minutely", "hourly",
                        "daily", "alerts"] : List String)
                    then some (strToLower tf) else none)))]) ∧
    excludeParam cExcl = "&exclude=current,minutely,hourly,alerts" ∧
    (testClient.OneCallData 0 0 "metric" cExcl).2 =
      ["https://api.openweathermap.org/data/2.5/onecall?lat=0.00&lon=0.00&units=metric&appid=KEY&exclude=current,minutely,hourly,alerts"] := by
  refine ⟨?_, by decide, by decide⟩
  intro c lat lon units exclude h
  unfold Client.OneCallData
  rw [h]
  dsimp only
  rcases h2 : c.HTTPClient (oneCallURL c lat lon units exclude) <;>
    simp [h2, oneCallURL, excludeParam_eq, excludeFilter_eq]

/-- Claim C3 witness: the general statement applied to the scenario
exclude list. -/
theorem C3_onecall_exclude_witness :
    (testClient.OneCallData 0 0 "metric" cExcl).2 =
      [testClient.BaseURL ++ "/data/2.5/onecall?lat=" ++ format2dp 0 ++ "&lon="
         ++ format2dp 0 ++ "&units=" ++ "metric" ++ "&appid=" ++ testClient.APIKey
         ++ (if (cExcl.filterMap (fun tf =>
                 if strToLower tf ∈ (["current", "minutely", "hourly",
                     "daily", "alerts"] : List String)
                 then some (strToLower tf) else none)) = []
             then ""
             else "&exclude=" ++ joinComma (cExcl.filterMap (fun tf =>
                 if strToLower tf ∈ (["current", "minutely", "hourly",
                     "daily", "alerts"] : List String)
                 then some (strToLower tf) else none)))] :=
  C3_onecall_exclude.1 testClient 0 0 "metric" cExcl (by decide)

/-- Claim C6: Current fails on an empty location and on invalid units
without requesting, and otherwise issues exactly one request to the
current weather URL and hands back the body unchanged; GeocodeData
likewise fails on an empty location without requesting. -/
theorem C6_current_request (c : Client) (location units : String) :
    (location = "" → c.Current location units = (([], some errEmptyLocation), [])) ∧
    (validUnit units = false →
       ((c.Current location units).1.2).isSome = true ∧
       (c.Current location units).2 = []) ∧
    (location ≠ "" → validUnit units = true →
       ((c.Current location units).2 =
          [c.BaseURL ++ "/data/2.5/weather?q=" ++ location ++ "&units="
             ++ units ++ "&appid=" ++ c.APIKey] ∧
        ∀ body : Bytes,
          c.HTTPClient (c.BaseURL ++ "/data/2.5/weather?q=" ++ location
              ++ "&units=" ++ units ++ "&appid=" ++ c.APIKey)
            = HttpOutcome.success body →
          c.Current location units
            = ((body, none),
               [c.BaseURL ++ "/data/2.5/weather?q=" ++ location ++ "&units="
                  ++ units ++ "&appid=" ++ c.APIKey]))) ∧
    (location = "" → c.GeocodeData location = (([], some errEmptyLocation), [])) := by
  refine ⟨?_, ?_, ?_, ?_⟩
  · intro h
    unfold Client.Current
    rw [if_pos h]
  · intro h
    unfold Client.Current
    rw [h]
    by_cases hl : location = "" <;> simp [hl]
  · intro hl hu
    unfold Client.Current
    rw [if_neg hl, hu]
    dsimp only [Bool.not_true]
    constructor
    · rcases h2 : c.HTTPClient (currentURL c location units) <;>
        simp [h2, currentURL]
    · intro body hb
      simp only [currentURL]
      rw [hb]
      rfl
  · intro h
    unfold Client.GeocodeData
    rw [if_pos h]

/-- Claim C6 witness: the empty location case and the success case on
the stub transport. -/
theorem C6_current_request_witness :
    testClient.Current "" "metric" = (([], some errEmptyLocation), []) ∧
    testClient.Current "london" "metric"
      = ((stubBody, none),
         [testClient.BaseURL ++ "/data/2.5/weather?q=" ++ "london" ++ "&units="
            ++ "metric" ++ "&appid=" ++ testClient.APIKey]) :=
  ⟨(C6_current_request testClient "" "metric").1 rfl,
   ((C6_current_request testClient "london" "metric").2.2.1
      (by decide) (by decide)).2 stubBody (by decide)⟩

/-- Claim C7: whenever an operation of the library returns an error,
the accompanying result is the zero value of its type, and Conditions
propagates the error of whichever stage failed first unchanged. -/
theorem C7_errors_zero_and_propagated :
    (∀ (hc : Transport) (apiKey : String) (e : GoErr),
       (NewClient hc apiKey).2 = some e → (NewClient hc apiKey).1 = zeroClient) ∧
    (∀ (c : Client) (location units : String) (e : GoErr),
       (c.Current location units).1.2 = some e →
       (c.Current location units).1.1 = []) ∧
    (∀ (c : Client) (location : String) (e : GoErr),
       (c.GeocodeData location).1.2 = some e →
       (c.GeocodeData location).1.1 = []) ∧
    (∀ (c : Client) (lat lon : ℚ) (units : String) (exclude : List String)
       (e : GoErr),
       (c.OneCallData lat lon units exclude).1.2 = some e →
       (c.OneCallData lat lon units exclude).1.1 = []) ∧
    (∀ (parse : Parse) (data : Bytes) (e : GoErr),
       (DecodeCurrent parse data).2 = some e →
       (DecodeCurrent parse data).1 = zeroCurrentResp) ∧
    (∀ (parse : Parse) (data : Bytes) (e : GoErr),
       (DecodeGeoData parse data).2 = some e →
       (DecodeGeoData parse data).1 = zeroLocation) ∧
    (∀ (parse : Parse) (data : Bytes) (e : GoErr),
       (DecodeOneCallDailyData parse data).2 = some e →
       (DecodeOneCallDailyData parse data).1 = []) ∧
    (∀ (hc : Transport) (parse : Parse) (location units apiKey : String)
       (e : GoErr),
       (Conditions hc parse location units apiKey).2 = some e →
       (Conditions hc parse location units apiKey).1 = "") ∧
    (∀ (hc : Transport) (parse : Parse) (location units apiKey : String)
       (e : GoErr),
       (NewClient hc apiKey).2 = some e →
       Conditions hc parse location units apiKey = ("", some e)) ∧
    (∀ (hc : Transport) (parse : Parse) (location units apiKey : String)
       (e : GoErr),
       (NewClient hc apiKey).2 = none →
       ((NewClient hc apiKey).1.Current location units).1.2 = some e →
       Conditions hc parse location units apiKey = ("", some e)) ∧
    (∀ (hc : Transport) (parse : Parse) (location units apiKey : String)
       (data : Bytes) (e : GoErr),
       (NewClient hc apiKey).2 = none →
       ((NewClient hc apiKey).1.Current location units).1 = (data, none) →
       (DecodeCurrent parse data).2 = some e →
       Conditions hc parse location units apiKey = ("", some e)) := by
  refine ⟨?_, ?_, ?_, ?_, ?_, ?_, ?_, ?_, ?_, ?_, ?_⟩
  · intro hc apiKey e
    unfold NewClient
    by_cases hk : apiKey = "" <;> simp [hk]
  · intro c location units e
    unfold Client.Current
    by_cases hl : location = ""
    · simp [hl]
    · rw [if_neg hl]
      by_cases hu : validUnit units = true
      · rw [hu]
        dsimp only [Bool.not_true]
        rcases h2 : c.HTTPClient (currentURL c location units) <;> simp [h2]
      · have hu' : validUnit units = false := by
          revert hu
          cases validUnit units <;> simp
        rw [hu']
        simp
  · intro c location e
    unfold Client.GeocodeData
    by_cases hl : location = ""
    · simp [hl]
    · rw [if_neg hl]
      rcases h2 : c.HTTPClient (geocodeURL c location) <;> simp [h2]
  · intro c lat lon units exclude e
    unfold Client.OneCallData
    by_cases hu : validUnit units = true
    · rw [hu]
      dsimp only [Bool.not_true]
      rcases h2 : c.HTTPClient (oneCallURL c lat lon units exclude) <;>
        simp [h2]
    · have hu' : validUnit units = false := by
        revert hu
        cases validUnit units <;> simp
      rw [hu']
      simp
  · intro parse data e
    unfold DecodeCurrent
    rcases hb : (parse data).bind decodeCurrentResp <;> simp [hb]
  · intro parse data e
    unfold DecodeGeoData
    rcases hb : (parse data).bind decodeLocations with _ | (_ | ⟨x, l⟩) <;>
      simp [hb]
  · intro parse data e
    unfold DecodeOneCallDailyData
    by_cases hd : data.length = 0
    · simp [hd]
    · rw [if_neg hd]
      rcases hb : (parse data).bind decodeOneCallResp <;> simp [hb]
  · intro hc parse location units apiKey e
    unfold Conditions
    rcases hN : NewClient hc apiKey with ⟨cl, _ | e1⟩
    · dsimp only
      rcases hC : (cl.Current location units).1 with ⟨d, _ | e2⟩
      · dsimp only
        rcases hD : DecodeCurrent parse d with ⟨r, _ | e3⟩ <;> simp
      · simp
    · simp
  · intro hc parse location units apiKey e h
    unfold Conditions
    rcases hN : NewClient hc apiKey with ⟨cl, err⟩
    rw [hN] at h
    simp only at h
    subst h
    rfl
  · intro hc parse location units apiKey e h1 h2
    unfold Conditions
    rcases hN : NewClient hc apiKey with ⟨cl, err⟩
    rw [hN] at h1 h2
    simp only at h1
    subst h1
    dsimp only
    rcases hC : (cl.Current location units).1 with ⟨d, err2⟩
    rw [hC] at h2
    simp only at h2
    subst h2
    rfl
  · intro hc parse location units apiKey data e h1 h2 h3
    unfold Conditions
    rcases hN : NewClient hc apiKey with ⟨cl, err⟩
    rw [hN] at h1 h2
    simp only at h1
    subst h1
    dsimp only
    rw [h2]
    dsimp only
    rcases hD : DecodeCurrent parse data with ⟨r, err3⟩
    rw [hD] at h3
    simp only at h3
    subst h3
    rfl

/-- Claim C7 witness: concrete error cases for each operation and each
propagation stage. -/
theorem C7_errors_zero_witness :
    (NewClient stubTransport "").1 = zeroClient ∧
    (testClient.Current "" "metric").1.1 = [] ∧
    (testClient.GeocodeData "").1.1 = [] ∧
    (testClient.OneCallData 0 0 "bogus" []).1.1 = [] ∧
    (DecodeCurrent stubParse []).1 = zeroCurrentResp ∧
    (DecodeGeoData stubParse []).1 = zeroLocation ∧
    (DecodeOneCallDailyData stubParse []).1 = [] ∧
    (Conditions stubTransport stubParse "london" "metric" "").1 = "" ∧
    Conditions stubTransport stubParse "london" "metric" ""
      = ("", some "apiKey argument must not be empty") ∧
    Conditions stubTransport stubParse "" "metric" "KEY"
      = ("", some errEmptyLocation) ∧
    Conditions stubTransport geoParse "london" "metric" "KEY"
      = ("", some "got error unmarshaling json") := by
  have h := C7_errors_zero_and_propagated
  refine ⟨h.1 stubTransport "" "apiKey argument must not be empty" (by decide),
    h.2.1 testClient "" "metric" errEmptyLocation (by decide),
    h.2.2.1 testClient "" errEmptyLocation (by decide),
    h.2.2.2.1 testClient 0 0 "bogus" [] errInvalidUnits (by decide),
    h.2.2.2.2.1 stubParse [] "got error unmarshaling json" (by decide),
    h.2.2.2.2.2.1 stubParse [] "got error unmarshaling geocode json data" (by decide),
    h.2.2.2.2.2.2.1 stubParse []
      "data must be a non-empty response from the OneCall API" (by decide),
    h.2.2.2.2.2.2.2.1 stubTransport stubParse "london" "metric" ""
      "apiKey argument must not be empty" (by decide),
    h.2.2.2.2.2.2.2.2.1 stubTransport stubParse "london" "metric" ""
      "apiKey argument must not be empty" (by decide),
    h.2.2.2.2.2.2.2.2.2.1 stubTransport stubParse "" "metric" "KEY"
      errEmptyLocation (by decide) (by decide),
    h.2.2.2.2.2.2.2.2.2.2 stubTransport geoParse "london" "metric" "KEY"
      stubBody "got error unmarshaling json" (by decide) (by decide) (by decide)⟩

/-- Claim C8: in the state threaded embedding every client method hands
back the receiver and the shared http configuration unchanged, and the
only ambient write of the library, the timeout assignment inside
NewClient, stores the constant ten seconds and touches neither the base
URL, nor the key, nor the transport handle of any existing client. -/
theorem C8_no_mutation :
    (∀ (c : Client) (cfg : HttpConfig) (location units : String),
       (c.CurrentW cfg location units).2 = (c, cfg)) ∧
    (∀ (c : Client) (cfg : HttpConfig) (location : String),
       (c.GeocodeDataW cfg location).2 = (c, cfg)) ∧
    (∀ (c : Client) (cfg : HttpConfig) (lat lon : ℚ) (units : String)
       (exclude : List String),
       (c.OneCallDataW cfg lat lon units exclude).2 = (c, cfg)) ∧
    (∀ (cfg : HttpConfig) (hc : Transport) (apiKey : String),
       (NewClientW cfg hc apiKey).2 = cfg ∨ (NewClientW cfg hc apiKey).2 = ⟨10⟩) ∧
    (∀ (cfg : HttpConfig) (hc : Transport) (apiKey : String),
       (NewClientW cfg hc apiKey).1 = NewClient hc apiKey) := by
  refine ⟨fun _ _ _ _ => rfl, fun _ _ _ => rfl, fun _ _ _ _ _ _ => rfl, ?_, ?_⟩
  · intro cfg hc apiKey
    unfold NewClientW
    by_cases hk : apiKey = "" <;> simp [hk]
  · intro cfg hc apiKey
    unfold NewClientW NewClient
    by_cases hk : apiKey = "" <;> simp [hk]

end Weather
